import Mathlib

/-!
Verification of the Gomoku launcher (src/src/start.py) against its
natural-language specification.

The launcher is the `if __name__ == "__main__":` block of start.py:

  if len(sys.argv) > 1 and sys.argv[1] == "--ui":
      gomoku_game = UI(size=10)
  else:
      gomoku_game = GomokuGUI(size=10)
  gomoku_game.run()

We embed it shallowly.  The two front-end classes `UI` and `GomokuGUI`
are opaque collaborators; the launcher only constructs one of them and
calls `run`, so we model a front-end instance by the variant that was
chosen together with the `size` value passed to its constructor, and we
model the launcher's behaviour as the trace of externally visible
events it performs (constructions and run-calls).
-/

/-- The two front-end variants the launcher can select.  `TextMode`
corresponds to constructing `UI`, `GraphicalMode` to `GomokuGUI`. -/
inductive Mode where
  | TextMode
  | GraphicalMode
  deriving DecidableEq, Repr

/-- A constructed front-end instance, identified by the selected variant
and the `size` argument passed to its constructor. -/
structure FrontEnd where
  mode : Mode
  boardSize : Nat
  deriving DecidableEq, Repr

/-- Externally visible events of the launcher: constructing a front-end
instance, and invoking `run` on an instance. -/
inductive Event where
  | construct (fe : FrontEnd)
  | run (fe : FrontEnd)
  deriving DecidableEq, Repr

/-- Python list indexing `xs[i]`: `some` of the element when `i` is in
range, `none` when indexing would raise `IndexError`. -/
def pyIndex (xs : List String) (i : Nat) : Option String :=
  xs[i]?

/-- The launcher's uiGuard, with Python's partiality made explicit:
`len(sys.argv) > 1 and sys.argv[1] == "--ui"`, where evaluating
`sys.argv[1]` out of range yields `none` (an `IndexError`) and `and`
short-circuits, so `sys.argv[1]` is only evaluated when
`len(sys.argv) > 1` holds. -/
def uiGuardChecked (sysArgv : List String) : Option Bool :=
  if sysArgv.length > 1 then
    (pyIndex sysArgv 1).map (fun a => a = "--ui")
  else
    some false

/-- The launcher's uiGuard as a total Boolean function (the intended
meaning once indexing is known to be safe). -/
def uiGuard (sysArgv : List String) : Bool :=
  sysArgv.length > 1 && sysArgv.getD 1 "" = "--ui"

/-- The front-end instance the launcher constructs from `sys.argv`:
`UI(size=10)` when the uiGuard holds, `GomokuGUI(size=10)` otherwise.
This is the `LaunchConfig` of the spec's data model. -/
def launchConfig (sysArgv : List String) : FrontEnd :=
  if uiGuard sysArgv then
    { mode := Mode.TextMode, boardSize := 10 }
  else
    { mode := Mode.GraphicalMode, boardSize := 10 }

/-- The selected variant. -/
def selectMode (sysArgv : List String) : Mode :=
  (launchConfig sysArgv).mode

/-- The launcher's behaviour as an event trace: it constructs exactly
one front-end instance and then calls `run` on that same instance. -/
def launcherMain (sysArgv : List String) : List Event :=
  let g := launchConfig sysArgv
  [Event.construct g, Event.run g]

/-- The launcher's behaviour with Python's partial indexing made
explicit: `none` models the run raising `IndexError` in the uiGuard. -/
def launcherMainChecked (sysArgv : List String) : Option (List Event) :=
  (uiGuardChecked sysArgv).map (fun b =>
    let g := if b then ({ mode := Mode.TextMode, boardSize := 10 } : FrontEnd)
             else { mode := Mode.GraphicalMode, boardSize := 10 }
    [Event.construct g, Event.run g])

/-- A process context: the launcher runs inside a process that also has
environment variables and persisted state available, but start.py reads
only `sys.argv`. -/
structure ProcessContext where
  sysArgv : List String
  envVars : List (String × String)
  persistedState : List String

/-- The launcher run in a full process context.  The body mirrors
start.py, which mentions no input channel other than `sys.argv`. -/
def launcherMainInContext (ctx : ProcessContext) : List Event :=
  launcherMain ctx.sysArgv

/-- Evaluation of the module start.py: the whole launcher body is under
`if __name__ == "__main__":`, so with any other module name nothing is
constructed or run. -/
def moduleEval (moduleName : String) (sysArgv : List String) : List Event :=
  if moduleName = "__main__" then launcherMain sysArgv else []

/-- Number of construction events in a trace. -/
def constructCount (tr : List Event) : Nat :=
  (tr.filter (fun e => match e with | Event.construct _ => true | Event.run _ => false)).length

/-- Number of run events in a trace. -/
def runCount (tr : List Event) : Nat :=
  (tr.filter (fun e => match e with | Event.construct _ => false | Event.run _ => true)).length

/-- The process argument list of the spec (`sys.argv[1:]`, the arguments
after the program name) prepended with a program name gives `sys.argv`. -/
def sysArgvOf (progName : String) (args : List String) : List String :=
  progName :: args

/-- Helper: the uiGuard on `progName :: args` looks only at the head of
`args`. -/
theorem uiGuard_cons (progName : String) (args : List String) :
    uiGuard (sysArgvOf progName args) = (args.head?.getD "" = "--ui" && !args.isEmpty) := by
  cases args with
  | nil => simp [uiGuard, sysArgvOf]
  | cons a rest =>
      simp [uiGuard, sysArgvOf, List.getD]

/-- Helper: the launch config on `progName :: args` is determined by
`args.head?`. -/
theorem launchConfig_head (progName : String) (args : List String) :
    launchConfig (sysArgvOf progName args) =
      (if args.head? = some "--ui"
       then { mode := Mode.TextMode, boardSize := 10 }
       else { mode := Mode.GraphicalMode, boardSize := 10 }) := by
  rw [launchConfig, uiGuard_cons]
  cases args with
  | nil => simp
  | cons a rest =>
      simp only [List.head?_cons, List.isEmpty_cons, Option.getD_some]
      by_cases h : a = "--ui" <;> simp [h]

/-- C1: for every argument list whose first element is exactly the
string "--ui", the launcher selects `TextMode` (constructs the text
front-end `UI`, not the graphical one). -/
theorem c1_first_arg_ui_selects_textMode
    (progName : String) (args : List String)
    (h : args.head? = some "--ui") :
    selectMode (sysArgvOf progName args) = Mode.TextMode := by
  unfold selectMode
  rw [launchConfig_head, if_pos h]

/-- Witness for C1 at the concrete input `["--ui"]`. -/
theorem c1_witness :
    (["--ui"] : List String).head? = some "--ui" ∧
      selectMode (sysArgvOf "start.py" ["--ui"]) = Mode.TextMode :=
  ⟨rfl, c1_first_arg_ui_selects_textMode "start.py" ["--ui"] rfl⟩

/-- C2: for every argument list that is empty or whose first element is
not "--ui", the launcher selects `GraphicalMode` and constructs
`GomokuGUI(size=10)`; in particular `[]` and `["somethingelse"]` both
yield the graphical front-end with board size 10. -/
theorem c2_otherwise_selects_graphicalMode
    (progName : String) (args : List String)
    (h : args.head? ≠ some "--ui") :
    launchConfig (sysArgvOf progName args) =
      { mode := Mode.GraphicalMode, boardSize := 10 } := by
  rw [launchConfig_head, if_neg h]

/-- Witness for C2 at the concrete inputs `[]` and `["somethingelse"]`. -/
theorem c2_witness :
    launchConfig (sysArgvOf "start.py" []) =
        { mode := Mode.GraphicalMode, boardSize := 10 } ∧
      launchConfig (sysArgvOf "start.py" ["somethingelse"]) =
        { mode := Mode.GraphicalMode, boardSize := 10 } :=
  ⟨c2_otherwise_selects_graphicalMode "start.py" [] (by decide),
   c2_otherwise_selects_graphicalMode "start.py" ["somethingelse"] (by decide)⟩

/-- C3: whichever variant is selected, the `size` value passed to the
constructor equals 10, for every possible argument vector. -/
theorem c3_boardSize_always_ten (sysArgv : List String) :
    (launchConfig sysArgv).boardSize = 10 := by
  unfold launchConfig
  by_cases h : uiGuard sysArgv <;> simp [h]

/-- C4: on every run exactly one front-end instance is constructed, and
the constructed instance is exactly the selected one (the non-selected
variant is never constructed, and no second instance is). -/
theorem c4_exactly_one_construction (sysArgv : List String) :
    constructCount (launcherMain sysArgv) = 1 ∧
      ∀ fe, Event.construct fe ∈ launcherMain sysArgv → fe = launchConfig sysArgv := by
  constructor
  · rfl
  · intro fe hmem
    simp [launcherMain] at hmem
    exact hmem

/-- C5: the selection is total and safe: for every argument vector the
checked semantics (in which an out-of-range `sys.argv[1]` raises
`IndexError`) succeeds and agrees with the total semantics — the
short-circuit uiGuard makes reading `sys.argv[1]` on an empty tail
unreachable, so no input hits an error path in the launcher. -/
theorem c5_selection_total_and_safe (sysArgv : List String) :
    launcherMainChecked sysArgv = some (launcherMain sysArgv) := by
  unfold launcherMainChecked uiGuardChecked launcherMain launchConfig uiGuard pyIndex
  match sysArgv with
  | [] => rfl
  | [p] => rfl
  | p :: a :: rest =>
      simp [List.getD]

/-- C6: selection is deterministic and depends on nothing but the
argument vector: two process contexts with equal `sys.argv` but
arbitrary environment variables and persisted state produce identical
launcher traces (same variant, same board size, same events). -/
theorem c6_deterministic_noninterference (ctx₁ ctx₂ : ProcessContext)
    (h : ctx₁.sysArgv = ctx₂.sysArgv) :
    launcherMainInContext ctx₁ = launcherMainInContext ctx₂ := by
  unfold launcherMainInContext
  rw [h]

/-- Witness for C6: equal argument vectors with different environments
and persisted state give the same trace. -/
theorem c6_witness :
    (ProcessContext.mk ["start.py", "--ui"] [("HOME", "/a")] ["saved"]).sysArgv =
        (ProcessContext.mk ["start.py", "--ui"] [("HOME", "/b")] []).sysArgv ∧
      launcherMainInContext (ProcessContext.mk ["start.py", "--ui"] [("HOME", "/a")] ["saved"]) =
        launcherMainInContext (ProcessContext.mk ["start.py", "--ui"] [("HOME", "/b")] []) :=
  ⟨rfl,
   c6_deterministic_noninterference
     (ProcessContext.mk ["start.py", "--ui"] [("HOME", "/a")] ["saved"])
     (ProcessContext.mk ["start.py", "--ui"] [("HOME", "/b")] []) rfl⟩

/-- C7: arguments after the first have no effect: any two argument lists
with the same head (agreeing also on emptiness) yield the same
constructed front-end; in particular `["--ui", "extra"]` behaves exactly
like `["--ui"]`. -/
theorem c7_extra_args_ignored
    (progName : String) (args₁ args₂ : List String)
    (h : args₁.head? = args₂.head?) :
    launchConfig (sysArgvOf progName args₁) = launchConfig (sysArgvOf progName args₂) := by
  rw [launchConfig_head, launchConfig_head, h]

/-- Witness for C7: `["--ui", "extra"]` constructs the same front-end as
`["--ui"]`, namely `UI(size=10)`. -/
theorem c7_witness :
    (["--ui", "extra"] : List String).head? = (["--ui"] : List String).head? ∧
      launchConfig (sysArgvOf "start.py" ["--ui", "extra"]) =
        launchConfig (sysArgvOf "start.py" ["--ui"]) ∧
      launchConfig (sysArgvOf "start.py" ["--ui", "extra"]) =
        { mode := Mode.TextMode, boardSize := 10 } :=
  ⟨rfl, c7_extra_args_ignored "start.py" ["--ui", "extra"] ["--ui"] rfl, by decide⟩

/-- C8: for every argument vector the launcher's trace is exactly one
construction followed by one `run` on the same instance: construction
precedes `run`, `run` is invoked exactly once, the handoff happens
unconditionally, and nothing follows the `run` event. -/
theorem c8_construct_then_run (sysArgv : List String) :
    launcherMain sysArgv =
        [Event.construct (launchConfig sysArgv), Event.run (launchConfig sysArgv)] ∧
      constructCount (launcherMain sysArgv) = 1 ∧
      runCount (launcherMain sysArgv) = 1 := by
  exact ⟨rfl, rfl, rfl⟩

/-- C9: the flag match is exact, case-sensitive equality against the
first argument only: "--UI", "--ui " (trailing space), "-ui" and
"--ui=x" as first argument all select `GraphicalMode`, and "--ui"
occurring only at a later position (as in `["x", "--ui"]`) also selects
`GraphicalMode`; only an exact first "--ui" selects `TextMode`. -/
theorem c9_exact_case_sensitive_match (progName : String) :
    selectMode (sysArgvOf progName ["--UI"]) = Mode.GraphicalMode ∧
      selectMode (sysArgvOf progName ["--ui "]) = Mode.GraphicalMode ∧
      selectMode (sysArgvOf progName ["-ui"]) = Mode.GraphicalMode ∧
      selectMode (sysArgvOf progName ["--ui=x"]) = Mode.GraphicalMode ∧
      selectMode (sysArgvOf progName ["x", "--ui"]) = Mode.GraphicalMode ∧
      selectMode (sysArgvOf progName ["--ui"]) = Mode.TextMode := by
  refine ⟨?_, ?_, ?_, ?_, ?_, ?_⟩ <;>
    · unfold selectMode
      rw [launchConfig_head]
      decide

/-- C10: everything the launcher does is guarded by the module-name
check: when start.py is imported (module name other than "__main__"),
the trace is empty — no front-end is constructed and `run` is never
invoked. -/
theorem c10_import_does_nothing
    (moduleName : String) (sysArgv : List String)
    (h : moduleName ≠ "__main__") :
    moduleEval moduleName sysArgv = [] := by
  unfold moduleEval
  rw [if_neg h]

/-- Witness for C10 at the concrete module name "start". -/
theorem c10_witness :
    ("start" : String) ≠ "__main__" ∧
      moduleEval "start" ["start.py", "--ui"] = [] :=
  ⟨by decide, c10_import_does_nothing "start" ["start.py", "--ui"] (by decide)⟩
